import Mathlib

/-!
Verification development for the CGM_Python repository.

This file shallowly embeds the data-handling kernels of the repository:

* `BinaryFrameDecoder.feed` / `SerialPage.process_binary_buffer`
  (src/PySide/01_Learn/DataDecoders.py, src/PySide/03_ModifyCGMPage/01_ReadSerial.py):
  the 15-byte checksum-verified binary frame decoder, modelled by `CGM.binRun`.
* `JsonFrameDecoder.feed` (src/PySide/01_Learn/DataDecoders.py) and
  `SerialPage.process_json_buffer` (src/PySide/03_ModifyCGMPage/01_ReadSerial.py):
  the two JSON-object extraction scans.
* `AppConfig.load` in both variants (src/PySide/01_Learn/config.py and
  src/PySide/03_ModifyCGMPage/01_ReadSerial.py).
* `DataMonitorPage._apply_filter`, `DataMonitorPage.KalmanFilter.update`,
  `DataMonitorPage._build_cv_cycles`, `SerialWorker.read_data`.

Python machine values are modelled as follows: bytes are `ℕ` (with explicit
`< 256` bounds and `% 256` where the code wraps), Python `float` arithmetic is
modelled exactly over `ℚ`, fallible Python operations (`int(...)`, attribute
access on a non-dict, ...) return `Except Unit _` / `Option _`.
-/

namespace CGM

/-! ## Binary frame decoder

Model of `BinaryFrameDecoder.feed` (DataDecoders.py lines 40-99), identical in
control flow to `SerialPage.process_binary_buffer` (01_ReadSerial.py lines
678-743).  A frame is 15 bytes: Head(0xA5) + Ms(4, LE) + Uric(2) + Ascorbic(2)
+ Glucose(2) + Code12(2) + Checksum(1) + Tail(0x5A).
-/

/-- A decoded binary frame, as in the dict built by `BinaryFrameDecoder.feed`:
`{"t": ms, "voltage": code12/4095*3.3, "uric": .., "ascorbic": .., "glucose": ..}`. -/
structure BinFrame where
  t : ℕ
  voltage : ℚ
  uric : ℕ
  ascorbic : ℕ
  glucose : ℕ
deriving DecidableEq

/-- 16-bit little-endian value, as unpacked by `struct.unpack("<IHHHH", ...)`. -/
def u16le (lo hi : ℕ) : ℕ := lo + 256 * hi

/-- 32-bit little-endian value. -/
def u32le (b0 b1 b2 b3 : ℕ) : ℕ := b0 + 256 * b1 + 65536 * b2 + 16777216 * b3

/-- Unpack the payload (bytes 1..12) of a 15-byte candidate frame and build the
decoded dict, mirroring the body of the checksum-success branch:
`ms, uric, ascorbic, glucose, code12 = struct.unpack("<IHHHH", payload)` and
`voltage_v = (code12 / 4095.0) * 3.3`. -/
def decodeFrame (buf : List ℕ) : BinFrame :=
  { t := u32le (buf.getD 1 0) (buf.getD 2 0) (buf.getD 3 0) (buf.getD 4 0)
    voltage := (u16le (buf.getD 11 0) (buf.getD 12 0) : ℚ) / 4095 * (33 / 10)
    uric := u16le (buf.getD 5 0) (buf.getD 6 0)
    ascorbic := u16le (buf.getD 7 0) (buf.getD 8 0)
    glucose := u16le (buf.getD 9 0) (buf.getD 10 0) }

/-- The checksum computed over payload bytes 1..12:
`calc_sum = sum(frame[1:13]) & 0xFF`. -/
def binChecksum (buf : List ℕ) : ℕ := ((buf.drop 1).take 12).sum % 256

/-- The scan loop of `BinaryFrameDecoder.feed`: while at least 15 bytes are
buffered, drop one byte on a head/tail/checksum mismatch, otherwise emit the
decoded frame and consume 15 bytes.  Returns the emitted frames (in order) and
the final buffer. -/
def binRun (buf : List ℕ) : List BinFrame × List ℕ :=
  if _hlt : buf.length < 15 then ([], buf)
  else if buf.getD 0 0 = 0xA5 then
    if buf.getD 14 0 = 0x5A then
      if binChecksum buf = buf.getD 13 0 then
        let r := binRun (buf.drop 15)
        (decodeFrame buf :: r.1, r.2)
      else binRun (buf.drop 1)
    else binRun (buf.drop 1)
  else binRun (buf.drop 1)
termination_by buf.length
decreasing_by
  all_goals simp only [List.length_drop]; omega

/-- `BinaryFrameDecoder.feed(data)`: append `data` to the internal buffer and
run the scan loop.  The decoder state is its buffer. -/
def binFeed (buffer data : List ℕ) : List BinFrame × List ℕ :=
  binRun (buffer ++ data)

/-- Fuel-indexed version of the scan loop, counting loop iterations: `none`
means the iteration budget was exhausted before the loop finished. -/
def binRunFuel : ℕ → List ℕ → Option (List BinFrame × List ℕ)
  | 0, buf => if buf.length < 15 then some ([], buf) else none
  | fuel + 1, buf =>
    if buf.length < 15 then some ([], buf)
    else if buf.getD 0 0 = 0xA5 then
      if buf.getD 14 0 = 0x5A then
        if binChecksum buf = buf.getD 13 0 then
          (binRunFuel fuel (buf.drop 15)).map (fun r => (decodeFrame buf :: r.1, r.2))
        else binRunFuel fuel (buf.drop 1)
      else binRunFuel fuel (buf.drop 1)
    else binRunFuel fuel (buf.drop 1)

theorem binRun_short (buf : List ℕ) (h : buf.length < 15) : binRun buf = ([], buf) := by
  rw [binRun, dif_pos h]

theorem binRun_frame (buf : List ℕ) (h1 : ¬ buf.length < 15) (h2 : buf.getD 0 0 = 0xA5)
    (h3 : buf.getD 14 0 = 0x5A) (h4 : binChecksum buf = buf.getD 13 0) :
    binRun buf = (decodeFrame buf :: (binRun (buf.drop 15)).1, (binRun (buf.drop 15)).2) := by
  rw [binRun, dif_neg h1, if_pos h2, if_pos h3, if_pos h4]

theorem binRun_drop1_head (buf : List ℕ) (h1 : ¬ buf.length < 15)
    (h2 : ¬ buf.getD 0 0 = 0xA5) : binRun buf = binRun (buf.drop 1) := by
  rw [binRun, dif_neg h1, if_neg h2]

theorem binRun_drop1_tail (buf : List ℕ) (h1 : ¬ buf.length < 15)
    (h2 : buf.getD 0 0 = 0xA5) (h3 : ¬ buf.getD 14 0 = 0x5A) :
    binRun buf = binRun (buf.drop 1) := by
  rw [binRun, dif_neg h1, if_pos h2, if_neg h3]

theorem binRun_drop1_ck (buf : List ℕ) (h1 : ¬ buf.length < 15)
    (h2 : buf.getD 0 0 = 0xA5) (h3 : buf.getD 14 0 = 0x5A)
    (h4 : ¬ binChecksum buf = buf.getD 13 0) :
    binRun buf = binRun (buf.drop 1) := by
  rw [binRun, dif_neg h1, if_pos h2, if_pos h3, if_neg h4]

/-- The loop needs at most one iteration per buffered byte: a fuel budget of
`buf.length` (or more) always completes. -/
theorem binRunFuel_complete : ∀ (fuel : ℕ) (buf : List ℕ), buf.length ≤ fuel →
    binRunFuel fuel buf = some (binRun buf) := by
  intro fuel
  induction fuel with
  | zero =>
    intro buf h
    have h15 : buf.length < 15 := by omega
    rw [binRun_short buf h15]
    simp only [binRunFuel, if_pos h15]
  | succ n ih =>
    intro buf h
    by_cases h15 : buf.length < 15
    · rw [binRun_short buf h15]
      simp only [binRunFuel, if_pos h15]
    · simp only [binRunFuel, if_neg h15]
      by_cases h2 : buf.getD 0 0 = 0xA5
      · rw [if_pos h2]
        by_cases h3 : buf.getD 14 0 = 0x5A
        · rw [if_pos h3]
          by_cases h4 : binChecksum buf = buf.getD 13 0
          · rw [if_pos h4, binRun_frame buf h15 h2 h3 h4,
              ih (buf.drop 15) (by simp only [List.length_drop]; omega)]
            rfl
          · rw [if_neg h4, binRun_drop1_ck buf h15 h2 h3 h4]
            exact ih (buf.drop 1) (by simp only [List.length_drop]; omega)
        · rw [if_neg h3, binRun_drop1_tail buf h15 h2 h3]
          exact ih (buf.drop 1) (by simp only [List.length_drop]; omega)
      · rw [if_neg h2, binRun_drop1_head buf h15 h2]
        exact ih (buf.drop 1) (by simp only [List.length_drop]; omega)

theorem binRun_rest_short (buf : List ℕ) : (binRun buf).2.length < 15 := by
  induction buf using binRun.induct with
  | case1 b h => rw [binRun_short b h]; exact h
  | case2 b h1 h2 h3 h4 ih => rw [binRun_frame b h1 h2 h3 h4]; exact ih
  | case3 b h1 h2 h3 h4 ih => rw [binRun_drop1_ck b h1 h2 h3 h4]; exact ih
  | case4 b h1 h2 h3 ih => rw [binRun_drop1_tail b h1 h2 h3]; exact ih
  | case5 b h1 h2 ih => rw [binRun_drop1_head b h1 h2]; exact ih

/-- **C8.** For every input byte sequence and every decoder buffer state, one
call to the binary frame decoder's `feed` terminates: each iteration of the
scan loop either consumes a complete 15-byte frame or removes exactly one byte
from the front of the buffer, so a fuel budget of one iteration per buffered
byte always suffices, and the loop stops exactly when fewer than 15 bytes
remain. -/
theorem binary_feed_terminates (buffer data : List ℕ) :
    (∀ fuel, (buffer ++ data).length ≤ fuel →
      binRunFuel fuel (buffer ++ data) = some (binFeed buffer data)) ∧
    (binFeed buffer data).2.length < 15 ∧
    (∀ buf : List ℕ, ¬ buf.length < 15 →
      binRun buf = binRun (buf.drop 1) ∨
      binRun buf = (decodeFrame buf :: (binRun (buf.drop 15)).1, (binRun (buf.drop 15)).2)) := by
  refine ⟨fun fuel hf => binRunFuel_complete fuel _ hf, binRun_rest_short _, fun buf h1 => ?_⟩
  by_cases h2 : buf.getD 0 0 = 0xA5
  · by_cases h3 : buf.getD 14 0 = 0x5A
    · by_cases h4 : binChecksum buf = buf.getD 13 0
      · exact Or.inr (binRun_frame buf h1 h2 h3 h4)
      · exact Or.inl (binRun_drop1_ck buf h1 h2 h3 h4)
    · exact Or.inl (binRun_drop1_tail buf h1 h2 h3)
  · exact Or.inl (binRun_drop1_head buf h1 h2)

/-- The well-formed 15-byte frame over payload bytes `p1..p12`: head `0xA5`,
checksum byte = sum of the payload modulo 256, tail `0x5A` (the input family
of claim C1 and of testable property 1 in the spec). -/
def mkValidFrame (p1 p2 p3 p4 p5 p6 p7 p8 p9 p10 p11 p12 : ℕ) : List ℕ :=
  [0xA5, p1, p2, p3, p4, p5, p6, p7, p8, p9, p10, p11, p12,
    [p1, p2, p3, p4, p5, p6, p7, p8, p9, p10, p11, p12].sum % 256, 0x5A]

/-- A concrete valid frame used by witnesses. -/
def mkValidFrame17 : List ℕ := mkValidFrame 1 2 3 4 5 6 7 8 9 10 11 12

/-- **C1.** For every 15-byte input with head `0xA5`, tail `0x5A` and correct
checksum, one `feed` on an empty decoder emits exactly one frame whose
`uric`/`ascorbic`/`glucose` are the 16-bit little-endian payload integers and
whose `voltage` is `code12/4095*3.3`, and consumes the whole buffer; and
changing any single payload byte (index 1..12) to a different byte value
(checksum untouched) makes the same call emit zero frames. -/
theorem binary_frame_roundtrip (p1 p2 p3 p4 p5 p6 p7 p8 p9 p10 p11 p12 : ℕ)
    (hb : ∀ b ∈ [p1, p2, p3, p4, p5, p6, p7, p8, p9, p10, p11, p12], b < 256) :
    binFeed [] (mkValidFrame p1 p2 p3 p4 p5 p6 p7 p8 p9 p10 p11 p12) =
      ([{ t := u32le p1 p2 p3 p4
          voltage := (u16le p11 p12 : ℚ) / 4095 * (33 / 10)
          uric := u16le p5 p6
          ascorbic := u16le p7 p8
          glucose := u16le p9 p10 }], []) ∧
    (∀ j nb, 1 ≤ j → j ≤ 12 → nb < 256 →
      nb ≠ (mkValidFrame p1 p2 p3 p4 p5 p6 p7 p8 p9 p10 p11 p12).getD j 0 →
      (binFeed [] ((mkValidFrame p1 p2 p3 p4 p5 p6 p7 p8 p9 p10 p11 p12).set j nb)).1 = []) := by
  simp only [List.mem_cons, List.not_mem_nil, or_false, forall_eq_or_imp, forall_eq] at hb
  obtain ⟨b1, b2, b3, b4, b5, b6, b7, b8, b9, b10, b11, b12⟩ := hb
  constructor
  · rw [binFeed, List.nil_append, binRun_frame]
    · rw [show (mkValidFrame p1 p2 p3 p4 p5 p6 p7 p8 p9 p10 p11 p12).drop 15 = [] from by
        simp [mkValidFrame]]
      rw [binRun_short [] (by simp)]
      simp [mkValidFrame, decodeFrame]
    · simp [mkValidFrame]
    · simp [mkValidFrame]
    · simp [mkValidFrame]
    · simp [mkValidFrame, binChecksum]
  · intro j nb hj1 hj2 hnb hne
    interval_cases j <;>
    · rw [binFeed, List.nil_append, binRun_drop1_ck]
      · rw [binRun_short _ (by simp [mkValidFrame])]
      · simp [mkValidFrame]
      · simp [mkValidFrame]
      · simp [mkValidFrame]
      · simp [mkValidFrame, binChecksum] at hne ⊢
        omega

/-- Witness for C1 at the concrete payload bytes `1..12` (corrupting payload
byte 5 in the second part). -/
theorem binary_frame_roundtrip_witness :
    binFeed [] mkValidFrame17 =
      ([{ t := u32le 1 2 3 4
          voltage := (u16le 11 12 : ℚ) / 4095 * (33 / 10)
          uric := u16le 5 6
          ascorbic := u16le 7 8
          glucose := u16le 9 10 }], []) ∧
    (binFeed [] (mkValidFrame17.set 5 77)).1 = [] :=
  ⟨(binary_frame_roundtrip 1 2 3 4 5 6 7 8 9 10 11 12 (by decide)).1,
   (binary_frame_roundtrip 1 2 3 4 5 6 7 8 9 10 11 12 (by decide)).2 5 77
     (by decide) (by decide) (by decide) (by decide)⟩

/-- Witness for C8 at a concrete buffer (a garbage byte followed by a valid
frame and a truncated tail). -/
theorem binary_feed_terminates_witness :
    binRunFuel 17 ([0x00] ++ (mkValidFrame17 ++ [0xA5])) =
      some (binFeed [0x00] (mkValidFrame17 ++ [0xA5])) :=
  (binary_feed_terminates [0x00] (mkValidFrame17 ++ [0xA5])).1 17
    (by simp [mkValidFrame17, mkValidFrame])

/-! ## Serial receive worker polling interval

Model of `SerialWorker.read_data` (01_ReadSerial.py lines 217-249).  The loop
state is `current_interval`; each poll either finds bytes waiting (reset to
`base_interval`) or not (double, capped at 500).  `base_interval` is
`20 if is_bluetooth else 5` (`SerialWorker.__init__`).
-/

/-- `SerialWorker.base_interval`. -/
def baseInterval (isBluetooth : Bool) : ℕ := if isBluetooth then 20 else 5

/-- One iteration's interval update in `SerialWorker.read_data`:
`dataWaiting = true` models `self.serial_port.in_waiting` being nonzero. -/
def nextInterval (base cur : ℕ) (dataWaiting : Bool) : ℕ :=
  if dataWaiting then base else min (cur * 2) 500

/-- The polling interval after a sequence of poll outcomes, starting from
`current_interval = base_interval`. -/
def intervalAfter (isBluetooth : Bool) (polls : List Bool) : ℕ :=
  polls.foldl (fun cur p => nextInterval (baseInterval isBluetooth) cur p)
    (baseInterval isBluetooth)

/-- **C9.** For every sequence of poll outcomes, the receive worker's polling
interval stays between its base interval (20 ms Bluetooth / 5 ms wired) and
500 ms: empty polls double it capped at 500, successful polls reset it to the
base value. -/
theorem worker_interval_bounds (isBluetooth : Bool) (polls : List Bool) :
    baseInterval isBluetooth ≤ intervalAfter isBluetooth polls ∧
    intervalAfter isBluetooth polls ≤ 500 := by
  have hbase : baseInterval isBluetooth ≤ 500 := by
    cases isBluetooth <;> simp [baseInterval]
  rw [intervalAfter]
  suffices h : ∀ (cur : ℕ), baseInterval isBluetooth ≤ cur → cur ≤ 500 →
      baseInterval isBluetooth ≤
        polls.foldl (fun c p => nextInterval (baseInterval isBluetooth) c p) cur ∧
      polls.foldl (fun c p => nextInterval (baseInterval isBluetooth) c p) cur ≤ 500 from
    h _ le_rfl hbase
  induction polls with
  | nil => exact fun cur h1 h2 => ⟨h1, h2⟩
  | cons p ps ih =>
    intro cur h1 h2
    simp only [List.foldl_cons]
    apply ih <;> cases p <;> simp [nextInterval] <;> omega

/-! ## Scalar Kalman filter

Model of `DataMonitorPage.KalmanFilter` (01_ReadSerial.py lines 833-853):
`__init__(Q=0.01, R=0.1)` sets `x = None`, `P = 0.1`; `update(z)` on the first
observation sets `x ← z` (returning it, `P` untouched), afterwards computes
`P_pred = P + Q`, `K = P_pred/(P_pred+R)`, `x ← x + K·(z−x)`,
`P ← (1−K)·P_pred`.
-/

structure KState where
  Q : ℚ
  R : ℚ
  x : Option ℚ
  P : ℚ
deriving DecidableEq

/-- `KalmanFilter.__init__(Q, R)`. -/
def KState.init (Q R : ℚ) : KState := { Q := Q, R := R, x := none, P := 1/10 }

/-- `KalmanFilter.update(z)`, returning the new estimate and the new filter
state (the gain `K` is inlined at its two use sites). -/
def KState.update (s : KState) (z : ℚ) : ℚ × KState :=
  match s.x with
  | none => (z, { s with x := some z })
  | some x0 =>
    (x0 + (s.P + s.Q) / (s.P + s.Q + s.R) * (z - x0),
     { s with
        x := some (x0 + (s.P + s.Q) / (s.P + s.Q + s.R) * (z - x0)),
        P := (1 - (s.P + s.Q) / (s.P + s.Q + s.R)) * (s.P + s.Q) })

/-- The filter state after feeding the constant observation `z = 100` to a
fresh default filter (`Q=0.01`, `R=0.1`) `n` times. -/
def kalmanIter : ℕ → KState
  | 0 => KState.init (1/100) (1/10)
  | n + 1 => ((kalmanIter n).update 100).2

theorem KState.update_some (s : KState) (x0 z : ℚ) (hx : s.x = some x0) :
    s.update z = (x0 + (s.P + s.Q) / (s.P + s.Q + s.R) * (z - x0),
      { s with x := some (x0 + (s.P + s.Q) / (s.P + s.Q + s.R) * (z - x0)),
               P := (1 - (s.P + s.Q) / (s.P + s.Q + s.R)) * (s.P + s.Q) }) := by
  rw [KState.update, hx]

/-- One covariance update with `Q=0.01`, `R=0.1`: positivity, preservation of
the quadratic invariant `1000·P² + 10·P − 1 > 0` (which pins `P` strictly
above the fixed point of the update map), and strict decrease. -/
theorem kalman_P_step (P : ℚ) (hP : 0 < P) (hInv : 0 < 1000 * P ^ 2 + 10 * P - 1) :
    0 < (1 - (P + 1 / 100) / (P + 1 / 100 + 1 / 10)) * (P + 1 / 100) ∧
    0 < 1000 * ((1 - (P + 1 / 100) / (P + 1 / 100 + 1 / 10)) * (P + 1 / 100)) ^ 2 +
        10 * ((1 - (P + 1 / 100) / (P + 1 / 100 + 1 / 10)) * (P + 1 / 100)) - 1 ∧
    (1 - (P + 1 / 100) / (P + 1 / 100 + 1 / 10)) * (P + 1 / 100) < P := by
  have hd : (0 : ℚ) < P + 11 / 100 := by linarith
  have hd0 : P + 11 / 100 ≠ 0 := ne_of_gt hd
  have hs0 : P + 1 / 100 + 1 / 10 ≠ 0 := by
    intro hc
    linarith [hc]
  have key : (1 - (P + 1 / 100) / (P + 1 / 100 + 1 / 10)) * (P + 1 / 100) =
      (P / 10 + 1 / 1000) / (P + 11 / 100) := by
    field_simp
    ring
  rw [key]
  refine ⟨div_pos (by linarith) hd, ?_, ?_⟩
  · have expand : 1000 * ((P / 10 + 1 / 1000) / (P + 11 / 100)) ^ 2 +
        10 * ((P / 10 + 1 / 1000) / (P + 11 / 100)) - 1 =
        (10 * P ^ 2 + P / 10 - 1 / 100) / (P + 11 / 100) ^ 2 := by
      field_simp
      ring
    rw [expand]
    apply div_pos (by nlinarith) (by positivity)
  · rw [div_lt_iff₀ hd]
    nlinarith

/-- After the first observation the state invariant holds and is preserved:
`Q`, `R` keep their defaults, the estimate is exactly 100, and the covariance
is positive and above the fixed point. -/
theorem kalman_invariant (n : ℕ) :
    (kalmanIter (n + 1)).Q = 1 / 100 ∧ (kalmanIter (n + 1)).R = 1 / 10 ∧
    (kalmanIter (n + 1)).x = some 100 ∧ 0 < (kalmanIter (n + 1)).P ∧
    0 < 1000 * (kalmanIter (n + 1)).P ^ 2 + 10 * (kalmanIter (n + 1)).P - 1 := by
  induction n with
  | zero =>
    refine ⟨rfl, rfl, rfl, by norm_num [kalmanIter, KState.update, KState.init], ?_⟩
    norm_num [kalmanIter, KState.update, KState.init]
  | succ m ih =>
    obtain ⟨hQ, hR, hx, hP, hInv⟩ := ih
    have hstep := kalman_P_step (kalmanIter (m + 1)).P hP hInv
    have hnext : kalmanIter (m + 1 + 1) = ((kalmanIter (m + 1)).update 100).2 := rfl
    rw [hnext, KState.update_some _ 100 100 hx]
    refine ⟨hQ, hR, by norm_num, ?_, ?_⟩
    · show 0 < (1 - ((kalmanIter (m + 1)).P + (kalmanIter (m + 1)).Q) /
        ((kalmanIter (m + 1)).P + (kalmanIter (m + 1)).Q + (kalmanIter (m + 1)).R)) *
        ((kalmanIter (m + 1)).P + (kalmanIter (m + 1)).Q)
      rw [hQ, hR]
      exact hstep.1
    · show 0 < 1000 * ((1 - ((kalmanIter (m + 1)).P + (kalmanIter (m + 1)).Q) /
        ((kalmanIter (m + 1)).P + (kalmanIter (m + 1)).Q + (kalmanIter (m + 1)).R)) *
        ((kalmanIter (m + 1)).P + (kalmanIter (m + 1)).Q)) ^ 2 +
        10 * ((1 - ((kalmanIter (m + 1)).P + (kalmanIter (m + 1)).Q) /
        ((kalmanIter (m + 1)).P + (kalmanIter (m + 1)).Q + (kalmanIter (m + 1)).R)) *
        ((kalmanIter (m + 1)).P + (kalmanIter (m + 1)).Q)) - 1
      rw [hQ, hR]
      exact hstep.2.1

/-- **C6.** With `Q=0.01`, `R=0.1` (`P` initialized to 0.1), feeding the
constant observation `z=100` repeatedly: the first observation sets the
estimate to 100 and leaves `P` at 0.1; every later state still estimates 100
(so the estimate has converged to 100), and the covariance strictly decreases
on every update after the first observation while staying strictly positive. -/
theorem kalman_constant_input (n : ℕ) :
    (kalmanIter 1).x = some 100 ∧ (kalmanIter 1).P = 1 / 10 ∧
    (kalmanIter (n + 1)).x = some 100 ∧
    0 < (kalmanIter (n + 1)).P ∧
    (kalmanIter (n + 2)).P < (kalmanIter (n + 1)).P := by
  obtain ⟨hQ, hR, hx, hP, hInv⟩ := kalman_invariant n
  refine ⟨rfl, rfl, hx, hP, ?_⟩
  have hstep := kalman_P_step (kalmanIter (n + 1)).P hP hInv
  have hnext : kalmanIter (n + 2) = ((kalmanIter (n + 1)).update 100).2 := rfl
  rw [hnext, KState.update_some _ 100 100 hx]
  show (1 - ((kalmanIter (n + 1)).P + (kalmanIter (n + 1)).Q) /
      ((kalmanIter (n + 1)).P + (kalmanIter (n + 1)).Q + (kalmanIter (n + 1)).R)) *
      ((kalmanIter (n + 1)).P + (kalmanIter (n + 1)).Q) < (kalmanIter (n + 1)).P
  rw [hQ, hR]
  exact hstep.2.2

/-! ## Per-channel filtering pipeline

Model of `DataMonitorPage._apply_filter` (01_ReadSerial.py lines 1092-1120).
The per-channel state is the rolling history `filter_buffers[key]` (whose
length is capped at `2*window_size`) together with the channel's Kalman
filter.  `FilterType` mirrors the enum of the final monitor variant
(value strings are field `value`, symbolic names are field `pyName`).
-/

inductive FilterType
  | NONE
  | MOVING_AVG
  | MEDIAN
  | KALMAN
deriving DecidableEq

/-- The enum's display value string (`FilterType.NONE.value == "无滤波"`, ...). -/
def FilterType.value : FilterType → String
  | .NONE => "无滤波"
  | .MOVING_AVG => "滑动平均"
  | .MEDIAN => "中值滤波"
  | .KALMAN => "卡尔曼滤波"

/-- The enum member's symbolic name (`FilterType.NONE.name == "NONE"`, ...). -/
def FilterType.pyName : FilterType → String
  | .NONE => "NONE"
  | .MOVING_AVG => "MOVING_AVG"
  | .MEDIAN => "MEDIAN"
  | .KALMAN => "KALMAN"

/-- `DataMonitorPage._apply_filter(key, raw_value)` for one channel: returns
the filtered value, the new rolling buffer and the new Kalman state.  Mirrors
the source line by line: Kalman branch first; otherwise append to the buffer,
trim it to the last `2*window_size` entries, and dispatch on the filter type
over the last `w = min(window_size, len(buf))` entries (`buf[-w:]`). -/
def applyFilter (ft : FilterType) (windowSize : ℕ) (buf : List ℚ) (kal : KState)
    (raw : ℚ) : ℚ × List ℚ × KState :=
  if ft = .KALMAN then
    ((kal.update raw).1, buf, (kal.update raw).2)
  else
    let buf1 := buf ++ [raw]
    let buf2 := if buf1.length > windowSize * 2 then
        buf1.drop (buf1.length - windowSize * 2) else buf1
    if ft = .NONE then (raw, buf2, kal)
    else
      let w := min windowSize buf2.length
      if w = 0 then (raw, buf2, kal)
      else if ft = .MOVING_AVG then
        ((buf2.drop (buf2.length - w)).sum / (w : ℚ), buf2, kal)
      else if ft = .MEDIAN then
        let s := (buf2.drop (buf2.length - w)).insertionSort (· ≤ ·)
        (s.getD (s.length / 2) 0, buf2, kal)
      else (raw, buf2, kal)

/-- Feed a sequence of raw values for one channel through `_apply_filter`,
starting from an empty history (the state after a filter-config change), and
collect the filtered outputs. -/
def runFilter (ft : FilterType) (windowSize : ℕ) (raws : List ℚ) : List ℚ :=
  (raws.foldl
    (fun (acc : List ℚ × List ℚ × KState) raw =>
      let r := applyFilter ft windowSize acc.2.1 acc.2.2 raw
      (acc.1 ++ [r.1], r.2.1, r.2.2))
    ([], [], KState.init (1 / 100) (1 / 10))).1

/-- **C3 (counterexample).** The claim's output sequence `[5, 1, 5, 1, 8]` for
the MEDIAN filter on inputs `5, 1, 9, 2, 8` with `window_size = 3` does not
match the code: `_apply_filter` takes `sorted(window)[len(window) // 2]`, the
*upper*-middle element for even-length windows, so the second output is
`sorted([5,1])[1] = 5`, not 1, and the fourth is `sorted([1,9,2])[1] = 2`,
not 1. -/
theorem median_filter_claimed_sequence_false :
    runFilter .MEDIAN 3 [5, 1, 9, 2, 8] ≠ [5, 1, 5, 1, 8] := by
  decide

/-- **C3 (amended).** Starting from an empty history, the MEDIAN filter with
`window_size = 3` maps the inputs `5, 1, 9, 2, 8` to the outputs
`5, 5, 5, 2, 8`: each output is `sorted(window)[len(window) // 2]` of the
most-recent window of up to 3 values. -/
theorem median_filter_sequence :
    runFilter .MEDIAN 3 [5, 1, 9, 2, 8] = [5, 5, 5, 2, 8] := by
  decide

/-! ## CV-cycle segmentation

Model of `DataMonitorPage._build_cv_cycles` (05_ReadSerial_14.py lines
1370-1422): walk the buffered voltage–glucose points; a voltage delta smaller
than `dv_threshold` in magnitude is absorbed without affecting the tracked
direction; a sign flip closes the current cycle (kept only if it has at least
`min_points` points) and starts a new one seeded with the previous point plus
the current point.
-/

/-- Python's builtin `abs` on a float, used as `abs(dv)` in the source. -/
def pyAbs (q : ℚ) : ℚ := if q < 0 then -q else q

def cvGo (thr : ℚ) (minPoints : ℕ) (cycles : List (List (ℚ × ℚ)))
    (cur : List (ℚ × ℚ)) (dir : Option ℤ) (prev : ℚ × ℚ) :
    List (ℚ × ℚ) → List (List (ℚ × ℚ))
  | [] => if minPoints ≤ cur.length then cycles ++ [cur] else cycles
  | p :: rest =>
    let dv := p.1 - prev.1
    if pyAbs dv < thr then cvGo thr minPoints cycles (cur ++ [p]) dir p rest
    else
      let stepDir : ℤ := if 0 < dv then 1 else -1
      match dir with
      | none => cvGo thr minPoints cycles (cur ++ [p]) (some stepDir) p rest
      | some d =>
        if stepDir = d then cvGo thr minPoints cycles (cur ++ [p]) (some d) p rest
        else
          cvGo thr minPoints
            (if minPoints ≤ cur.length then cycles ++ [cur] else cycles)
            [prev, p] (some stepDir) p rest

/-- `_build_cv_cycles(dv_threshold, min_points)` on a buffered point list. -/
def buildCvCycles (data : List (ℚ × ℚ)) (thr : ℚ) (minPoints : ℕ) :
    List (List (ℚ × ℚ)) :=
  match data with
  | [] => []
  | [_] => []
  | p :: rest => cvGo thr minPoints [] [p] none p rest

theorem cvGo_nil_eq {thr : ℚ} {mp : ℕ} {cycles : List (List (ℚ × ℚ))}
    {cur : List (ℚ × ℚ)} {dir : Option ℤ} {prev : ℚ × ℚ} :
    cvGo thr mp cycles cur dir prev [] =
      if mp ≤ cur.length then cycles ++ [cur] else cycles := rfl

theorem cvGo_step_first (d : ℤ) {thr : ℚ} {mp : ℕ}
    {cycles : List (List (ℚ × ℚ))} {cur : List (ℚ × ℚ)} {prev p : ℚ × ℚ}
    {rest : List (ℚ × ℚ)}
    (hthr : ¬ pyAbs (p.1 - prev.1) < thr)
    (hdir : (if 0 < p.1 - prev.1 then (1 : ℤ) else -1) = d) :
    cvGo thr mp cycles cur none prev (p :: rest) =
      cvGo thr mp cycles (cur ++ [p]) (some d) p rest := by
  rw [cvGo]
  simp only [if_neg hthr, hdir]

theorem cvGo_step_same {thr : ℚ} {mp : ℕ} {cycles : List (List (ℚ × ℚ))}
    {cur : List (ℚ × ℚ)} {prev p : ℚ × ℚ} {rest : List (ℚ × ℚ)} {d : ℤ}
    (hthr : ¬ pyAbs (p.1 - prev.1) < thr)
    (hdir : (if 0 < p.1 - prev.1 then (1 : ℤ) else -1) = d) :
    cvGo thr mp cycles cur (some d) prev (p :: rest) =
      cvGo thr mp cycles (cur ++ [p]) (some d) p rest := by
  rw [cvGo]
  simp only [if_neg hthr, hdir, eq_self_iff_true, if_true]

theorem cvGo_step_flip (d' : ℤ) {thr : ℚ} {mp : ℕ}
    {cycles : List (List (ℚ × ℚ))} {cur : List (ℚ × ℚ)} {prev p : ℚ × ℚ}
    {rest : List (ℚ × ℚ)} {d : ℤ}
    (hthr : ¬ pyAbs (p.1 - prev.1) < thr)
    (hdir : (if 0 < p.1 - prev.1 then (1 : ℤ) else -1) = d')
    (hne : d' ≠ d) :
    cvGo thr mp cycles cur (some d) prev (p :: rest) =
      cvGo thr mp (if mp ≤ cur.length then cycles ++ [cur] else cycles)
        [prev, p] (some d') p rest := by
  rw [cvGo]
  simp only [if_neg hthr, hdir, if_neg hne]

/-- The triangular voltage ramp of claim C5 paired with 21 arbitrary glucose
values: 0.0 up to 1.0 in 0.1 V steps, then back down to 0.0. -/
def cvRampData (g0 g1 g2 g3 g4 g5 g6 g7 g8 g9 g10 g11 g12 g13 g14 g15 g16 g17
    g18 g19 g20 : ℚ) : List (ℚ × ℚ) :=
  [(0, g0), (1/10, g1), (1/5, g2), (3/10, g3), (2/5, g4), (1/2, g5),
   (3/5, g6), (7/10, g7), (4/5, g8), (9/10, g9), (1, g10), (9/10, g11),
   (4/5, g12), (7/10, g13), (3/5, g14), (1/2, g15), (2/5, g16),
   (3/10, g17), (1/5, g18), (1/10, g19), (0, g20)]

/-- **C5.** On the 0.0→1.0→0.0 ramp in 0.1 V steps (any glucose values),
`_build_cv_cycles` with threshold 0.002 V and minimum 10 points yields exactly
two cycles: the rising sweep (points 0..10) and the falling sweep (points
10..20).  Each has 11 ≥ 10 points, and the cycles share exactly the index-10
boundary point, the 1.0 V turning point, which seeds the second cycle. -/
theorem cv_cycles_ramp (g0 g1 g2 g3 g4 g5 g6 g7 g8 g9 g10 g11 g12 g13 g14 g15
    g16 g17 g18 g19 g20 : ℚ) :
    buildCvCycles (cvRampData g0 g1 g2 g3 g4 g5 g6 g7 g8 g9 g10 g11 g12 g13
        g14 g15 g16 g17 g18 g19 g20) (1/500) 10 =
      [(cvRampData g0 g1 g2 g3 g4 g5 g6 g7 g8 g9 g10 g11 g12 g13 g14 g15 g16
          g17 g18 g19 g20).take 11,
       (cvRampData g0 g1 g2 g3 g4 g5 g6 g7 g8 g9 g10 g11 g12 g13 g14 g15 g16
          g17 g18 g19 g20).drop 10] ∧
    ((cvRampData g0 g1 g2 g3 g4 g5 g6 g7 g8 g9 g10 g11 g12 g13 g14 g15 g16
        g17 g18 g19 g20).take 11).length = 11 ∧
    ((cvRampData g0 g1 g2 g3 g4 g5 g6 g7 g8 g9 g10 g11 g12 g13 g14 g15 g16
        g17 g18 g19 g20).drop 10).length = 11 ∧
    ((cvRampData g0 g1 g2 g3 g4 g5 g6 g7 g8 g9 g10 g11 g12 g13 g14 g15 g16
        g17 g18 g19 g20).take 11).getLast? = some (1, g10) ∧
    ((cvRampData g0 g1 g2 g3 g4 g5 g6 g7 g8 g9 g10 g11 g12 g13 g14 g15 g16
        g17 g18 g19 g20).drop 10).head? = some (1, g10) := by
  refine ⟨?_, rfl, rfl, rfl, rfl⟩
  show cvGo (1/500) 10 [] [((0 : ℚ), g0)] none ((0 : ℚ), g0)
      [(1/10, g1), (1/5, g2), (3/10, g3), (2/5, g4), (1/2, g5), (3/5, g6),
       (7/10, g7), (4/5, g8), (9/10, g9), (1, g10), (9/10, g11), (4/5, g12),
       (7/10, g13), (3/5, g14), (1/2, g15), (2/5, g16), (3/10, g17),
       (1/5, g18), (1/10, g19), (0, g20)] = _
  refine ((cvGo_step_first 1 (by norm_num [pyAbs]) (by norm_num)).trans ?_)
  refine ((cvGo_step_same (by norm_num [pyAbs]) (by norm_num)).trans ?_)
  refine ((cvGo_step_same (by norm_num [pyAbs]) (by norm_num)).trans ?_)
  refine ((cvGo_step_same (by norm_num [pyAbs]) (by norm_num)).trans ?_)
  refine ((cvGo_step_same (by norm_num [pyAbs]) (by norm_num)).trans ?_)
  refine ((cvGo_step_same (by norm_num [pyAbs]) (by norm_num)).trans ?_)
  refine ((cvGo_step_same (by norm_num [pyAbs]) (by norm_num)).trans ?_)
  refine ((cvGo_step_same (by norm_num [pyAbs]) (by norm_num)).trans ?_)
  refine ((cvGo_step_same (by norm_num [pyAbs]) (by norm_num)).trans ?_)
  refine ((cvGo_step_same (by norm_num [pyAbs]) (by norm_num)).trans ?_)
  refine ((cvGo_step_flip (-1) (by norm_num [pyAbs]) (by norm_num)
    (by decide)).trans ?_)
  refine ((cvGo_step_same (by norm_num [pyAbs]) (by norm_num)).trans ?_)
  refine ((cvGo_step_same (by norm_num [pyAbs]) (by norm_num)).trans ?_)
  refine ((cvGo_step_same (by norm_num [pyAbs]) (by norm_num)).trans ?_)
  refine ((cvGo_step_same (by norm_num [pyAbs]) (by norm_num)).trans ?_)
  refine ((cvGo_step_same (by norm_num [pyAbs]) (by norm_num)).trans ?_)
  refine ((cvGo_step_same (by norm_num [pyAbs]) (by norm_num)).trans ?_)
  refine ((cvGo_step_same (by norm_num [pyAbs]) (by norm_num)).trans ?_)
  refine ((cvGo_step_same (by norm_num [pyAbs]) (by norm_num)).trans ?_)
  refine ((cvGo_step_same (by norm_num [pyAbs]) (by norm_num)).trans ?_)
  rw [cvGo_nil_eq]
  norm_num [cvRampData]

/-! ## JSON documents and Python coercion semantics

`JVal` models the result of a successful `json.loads`: null, booleans,
numbers (ints and floats kept apart, floats over `ℚ`), strings, arrays and
objects.  The fallible Python coercions used by the config loaders are
modelled in `Except Unit`/`Option`.
-/

inductive JVal
  | jnull
  | jbool (b : Bool)
  | jint (n : ℤ)
  | jfloat (q : ℚ)
  | jstr (s : String)
  | jlist (xs : List JVal)
  | jobj (kvs : List (String × JVal))
deriving Inhabited

/-- Python `d[k]`-style lookup in a decoded JSON object (`json.loads` keeps
the last binding of a duplicated key, hence the reverse search). -/
def jlookup (kvs : List (String × JVal)) (k : String) : Option JVal :=
  (kvs.reverse.find? (fun kv => kv.1 == k)).map (·.2)

/-- `x.get(k, dflt)`: raises (`AttributeError`) unless `x` is a dict. -/
def pyGetE (v : JVal) (k : String) (dflt : JVal) : Except Unit JVal :=
  match v with
  | .jobj kvs => .ok ((jlookup kvs k).getD dflt)
  | _ => .error ()

/-- Python whitespace stripped by `int(str)`/`float(str)`. -/
def isPySpace (c : Char) : Bool :=
  c == ' ' || c == '\t' || c == '\n' || c == '\r'

/-- Decimal-digit run accumulator: `none` on the first non-digit. -/
def digitsVal : List Char → ℕ → Option ℕ
  | [], acc => some acc
  | c :: cs, acc =>
    if c.isDigit then digitsVal cs (acc * 10 + (c.toNat - 48)) else none

/-- The integer a string denotes for Python `int(str)`: optional surrounding
whitespace, optional sign, then decimal digits; anything else fails. -/
def pyStrToInt? (s : String) : Option ℤ :=
  let cs := ((s.data.dropWhile isPySpace).reverse.dropWhile isPySpace).reverse
  match cs with
  | [] => none
  | '-' :: ds => if ds = [] then none else (digitsVal ds 0).map (fun v => -(v : ℤ))
  | '+' :: ds => if ds = [] then none else (digitsVal ds 0).map (fun v => (v : ℤ))
  | ds => (digitsVal ds 0).map (fun v => (v : ℤ))

/-- `int(x)` on a JSON-derived value: succeeds on bools, ints, floats
(truncating toward zero) and integer-literal strings, raises otherwise.
(Only integer-literal strings are modelled as numeric; the claims exercise
non-numeric strings, which fail in both the model and Python.) -/
def pyIntE : JVal → Except Unit ℤ
  | .jbool b => .ok (if b then 1 else 0)
  | .jint n => .ok n
  | .jfloat q => .ok (q.num.tdiv q.den)
  | .jstr s =>
    match pyStrToInt? s with
    | some n => .ok n
    | none => .error ()
  | _ => .error ()

/-- `float(x)`: like `int(x)` but keeps the value exact. -/
def pyFloatE : JVal → Except Unit ℚ
  | .jbool b => .ok (if b then 1 else 0)
  | .jint n => .ok (n : ℚ)
  | .jfloat q => .ok q
  | .jstr s =>
    match pyStrToInt? s with
    | some n => .ok (n : ℚ)
    | none => .error ()
  | _ => .error ()

/-- Python truthiness `bool(x)`; never raises. -/
def pyBool : JVal → Bool
  | .jnull => false
  | .jbool b => b
  | .jint n => n != 0
  | .jfloat q => q != 0
  | .jstr s => s != ""
  | .jlist xs => !xs.isEmpty
  | .jobj kvs => !kvs.isEmpty

/-- Python `str(x)`; never raises.  Only the string case's exact value matters
to the claims. -/
def pyStr : JVal → String
  | .jstr s => s
  | .jnull => "None"
  | .jbool b => if b then "True" else "False"
  | .jint n => toString n
  | .jfloat q => toString q
  | .jlist _ => "[list]"
  | .jobj _ => "[dict]"

/-- `FilterType(s)`: Python `Enum` lookup by value, in declaration order. -/
def filterTypeOfValue (s : String) : Option FilterType :=
  if s = FilterType.NONE.value then some .NONE
  else if s = FilterType.MOVING_AVG.value then some .MOVING_AVG
  else if s = FilterType.MEDIAN.value then some .MEDIAN
  else if s = FilterType.KALMAN.value then some .KALMAN
  else none

/-- `_safe_filter_type(v, default)` (01_ReadSerial.py lines 141-146): matches
the displayed value or the member name of each `FilterType` in declaration
order, falling back to `default`.  A non-string value compares unequal to
every string, as in Python. -/
def safeFilterType (v : JVal) (dflt : FilterType) : FilterType :=
  match v with
  | .jstr s =>
    if s = FilterType.NONE.value ∨ s = FilterType.NONE.pyName then .NONE
    else if s = FilterType.MOVING_AVG.value ∨ s = FilterType.MOVING_AVG.pyName then
      .MOVING_AVG
    else if s = FilterType.MEDIAN.value ∨ s = FilterType.MEDIAN.pyName then .MEDIAN
    else if s = FilterType.KALMAN.value ∨ s = FilterType.KALMAN.pyName then .KALMAN
    else dflt
  | _ => dflt

/-! ## AppConfig.load — final monitor variant (01_ReadSerial.py lines 85-129)

The final variant coerces every field it reads (`int(...)`, `float(...)`,
`bool(...)`, `str(...)`), so its sections have typed fields.  The only
`try/except` is around `json.loads`; the per-field coercions are *not*
protected. -/

structure UIConfig03 where
  ui_update_interval_ms : ℤ
  max_table_rows : ℤ
deriving DecidableEq

structure FilterConfig03 where
  filter_type : FilterType
  window_size : ℤ
  kalman_Q : ℚ
  kalman_R : ℚ
deriving DecidableEq

structure SaveConfig03 where
  auto_save : Bool
  save_interval_ms : ℤ
  save_path : String
deriving DecidableEq

structure ProtoConfig03 where
  time_unit : String
  voltage_scale : ℚ
  uric_scale : ℚ
  ascorbic_scale : ℚ
  glucose_scale : ℚ
deriving DecidableEq

structure AppConfig03 where
  ui : UIConfig03
  filt : FilterConfig03
  save : SaveConfig03
  proto : ProtoConfig03
deriving DecidableEq

/-- The dataclass defaults of the final monitor variant. -/
def defaultConfig03 : AppConfig03 :=
  { ui := { ui_update_interval_ms := 50, max_table_rows := 2000 }
    filt := { filter_type := .MOVING_AVG, window_size := 5,
              kalman_Q := 1/100, kalman_R := 1/10 }
    save := { auto_save := false, save_interval_ms := 1000,
              save_path := "./serial_data" }
    proto := { time_unit := "auto", voltage_scale := 1, uric_scale := 1,
               ascorbic_scale := 1, glucose_scale := 1 } }

/-- The body of the final monitor's `AppConfig.load` after a successful
`json.loads` (lines 100-129), with every fallible Python operation explicit:
`raw.get(...)` raises on a non-dict, `int(...)`/`float(...)` raise on
non-numeric values, and nothing catches those exceptions. -/
def load03Parsed (raw : JVal) : Except Unit AppConfig03 := do
  let c := defaultConfig03
  let ui ← pyGetE raw "ui" (.jobj [])
  let uiInterval ← pyIntE
    (← pyGetE ui "ui_update_interval_ms" (.jint c.ui.ui_update_interval_ms))
  let uiRows ← pyIntE (← pyGetE ui "max_table_rows" (.jint c.ui.max_table_rows))
  let flt ← pyGetE raw "filt" (.jobj [])
  let ftRaw ← pyGetE flt "filter_type" (.jstr c.filt.filter_type.value)
  let ftVal := safeFilterType ftRaw c.filt.filter_type
  let wsize ← pyIntE (← pyGetE flt "window_size" (.jint c.filt.window_size))
  let kq ← pyFloatE (← pyGetE flt "kalman_Q" (.jfloat c.filt.kalman_Q))
  let kr ← pyFloatE (← pyGetE flt "kalman_R" (.jfloat c.filt.kalman_R))
  let sv ← pyGetE raw "save" (.jobj [])
  let autoSave := pyBool ((← pyGetE sv "auto_save" (.jbool c.save.auto_save)))
  let svInterval ← pyIntE
    (← pyGetE sv "save_interval_ms" (.jint c.save.save_interval_ms))
  let svPath := pyStr (← pyGetE sv "save_path" (.jstr c.save.save_path))
  let pr ← pyGetE raw "proto" (.jobj [])
  let timeUnit := pyStr (← pyGetE pr "time_unit" (.jstr c.proto.time_unit))
  let vScale ← pyFloatE (← pyGetE pr "voltage_scale" (.jfloat c.proto.voltage_scale))
  let uScale ← pyFloatE (← pyGetE pr "uric_scale" (.jfloat c.proto.uric_scale))
  let aScale ← pyFloatE (← pyGetE pr "ascorbic_scale" (.jfloat c.proto.ascorbic_scale))
  let gScale ← pyFloatE (← pyGetE pr "glucose_scale" (.jfloat c.proto.glucose_scale))
  return { ui := { ui_update_interval_ms := uiInterval, max_table_rows := uiRows }
           filt := { filter_type := ftVal, window_size := wsize,
                     kalman_Q := kq, kalman_R := kr }
           save := { auto_save := autoSave, save_interval_ms := svInterval,
                     save_path := svPath }
           proto := { time_unit := timeUnit, voltage_scale := vScale,
                      uric_scale := uScale, ascorbic_scale := aScale,
                      glucose_scale := gScale } }

/-- The three states the config file can be in when `load` runs. -/
inductive ConfigFile
  | absent
  | unparseable
  | parsed (v : JVal)

/-- `AppConfig.load` of the final monitor (lines 85-129) together with its
disk side effect: the result, and the list of configurations written to disk
by `save_to` during the call.  An absent or unparseable file makes `load`
build an all-defaults config and immediately `save_to()` it (overwriting
whatever the file held); a parsed document is merged without writing. -/
def load03 : ConfigFile → Except Unit AppConfig03 × List AppConfig03
  | .absent => (.ok defaultConfig03, [defaultConfig03])
  | .unparseable => (.ok defaultConfig03, [defaultConfig03])
  | .parsed v => (load03Parsed v, [])

/-! ## AppConfig.load — 01_Learn variant (config.py lines 102-179)

Python dataclasses do not validate field types, so the merged sections can
hold arbitrary JSON-derived values; `PyVal` is a field's runtime value.
Sections are modelled as their `asdict(...)` key/value lists. -/

/-- A value stored in a dataclass field of the 01_Learn `AppConfig`: a
JSON-derived value, or a `FilterType` enum member. -/
inductive PyVal
  | j (v : JVal)
  | ft (t : FilterType)

/-- Last-binding lookup in a merged section. -/
def plookup (kvs : List (String × PyVal)) (k : String) : Option PyVal :=
  (kvs.reverse.find? (fun kv => kv.1 == k)).map (·.2)

/-- `_safe_dataclass_update(current, patch, cls)` (config.py lines 156-179):
if `patch` is a dict, the fields of `current` named in it are overridden
(unknown keys in `patch` are ignored because only `current`'s keys — the
dataclass fields — are looked up); otherwise `current` is returned unchanged.
The reconstruction `cls_type(**base)` cannot fail for these dataclasses
(no type validation, no missing or unexpected keys), so the source's
`try/except` fallback never fires and no error case remains. -/
def safeDataclassUpdate (current : List (String × PyVal)) (patch : JVal) :
    List (String × PyVal) :=
  match patch with
  | .jobj kvs =>
    current.map (fun f => (f.1, ((jlookup kvs f.1).map PyVal.j).getD f.2))
  | _ => current

/-- The `filt` branch of `_merge_inplace` (config.py lines 139-150): when the
section is a dict whose `filter_type` entry is a string, that entry is
replaced by `FilterType(s)` — the enum member with that value — or, when the
coercion fails, by the current default member (`except` branch); then the
dataclass update runs on the patched section. -/
def mergeFilt01 (current : List (String × PyVal)) (dfltFt : FilterType)
    (patch : JVal) : List (String × PyVal) :=
  match patch with
  | .jobj kvs =>
    let patched : List (String × PyVal) :=
      match jlookup kvs "filter_type" with
      | some (.jstr s) =>
        kvs.map (fun kv => (kv.1, PyVal.j kv.2)) ++
          [("filter_type", PyVal.ft ((filterTypeOfValue s).getD dfltFt))]
      | _ => kvs.map (fun kv => (kv.1, PyVal.j kv.2))
    current.map (fun f => (f.1, (plookup patched f.1).getD f.2))
  | _ => current

structure AppConfig01 where
  serial : List (String × PyVal)
  protocol : List (String × PyVal)
  calib : List (String × PyVal)
  filt : List (String × PyVal)
  save : List (String × PyVal)
  ui : List (String × PyVal)

/-- `asdict(AppConfig())` of config.py with all dataclass defaults. -/
def defaultConfig01 : AppConfig01 :=
  { serial :=
      [("baudrate", .j (.jint 115200)), ("databits", .j (.jint 8)),
       ("stopbits", .j (.jstr "1")), ("parity", .j (.jstr "None")),
       ("auto_reconnect", .j (.jbool false)),
       ("bluetooth_force_9600", .j (.jbool false)),
       ("bluetooth_baudrate", .j (.jint 9600)),
       ("is_bluetooth_hint", .j (.jbool true)),
       ("poll_interval_bluetooth_ms", .j (.jint 20)),
       ("poll_interval_uart_ms", .j (.jint 5))]
    protocol :=
      [("field_ms", .j (.jstr "Ms")), ("field_uric", .j (.jstr "Uric")),
       ("field_ascorbic", .j (.jstr "Ascorbic")),
       ("field_glucose", .j (.jstr "Glucose")),
       ("field_code12", .j (.jstr "Code12")),
       ("line_delimiter", .j (.jstr "\n"))]
    calib :=
      [("adc_value_per_volt", .j (.jfloat (12409091/10000))),
       ("ref_volt", .j (.jfloat (3/2))), ("time_gain", .j (.jfloat 1000)),
       ("uric_gain", .j (.jfloat (51/2500))),
       ("ascorbic_gain", .j (.jfloat (47/10000))),
       ("glucose_gain", .j (.jfloat (1/5)))]
    filt :=
      [("filter_type", .ft .MOVING_AVG), ("window_size", .j (.jint 5)),
       ("kalman_Q", .j (.jfloat (1/100))), ("kalman_R", .j (.jfloat (1/10)))]
    save :=
      [("auto_save", .j (.jbool false)), ("save_interval_ms", .j (.jint 1000)),
       ("save_path", .j (.jstr "./serial_data"))]
    ui :=
      [("max_table_rows", .j (.jint 2000)),
       ("ui_update_interval_ms", .j (.jint 50))] }

/-- `AppConfig.load` of config.py (lines 102-119) with `_merge_inplace`
(lines 133-153): an absent file, an unparseable file, or a non-dict document
returns the defaults; otherwise every section is merged through
`_safe_dataclass_update`, the `filt` section after its enum pre-processing.
Modelled in `Except` so that an uncaught Python exception would show up as
`.error`: none of the primitives this variant uses can raise (the enum
coercion and the dataclass reconstruction, the two fallible steps, are
wrapped in `try/except` in the source). -/
def load01 : ConfigFile → Except Unit AppConfig01
  | .absent => .ok defaultConfig01
  | .unparseable => .ok defaultConfig01
  | .parsed raw =>
    match raw with
    | .jobj kvs =>
      .ok { serial := safeDataclassUpdate defaultConfig01.serial
              ((jlookup kvs "serial").getD (.jobj []))
            protocol := safeDataclassUpdate defaultConfig01.protocol
              ((jlookup kvs "protocol").getD (.jobj []))
            calib := safeDataclassUpdate defaultConfig01.calib
              ((jlookup kvs "calib").getD (.jobj []))
            filt := mergeFilt01 defaultConfig01.filt .MOVING_AVG
              ((jlookup kvs "filt").getD (.jobj []))
            save := safeDataclassUpdate defaultConfig01.save
              ((jlookup kvs "save").getD (.jobj []))
            ui := safeDataclassUpdate defaultConfig01.ui
              ((jlookup kvs "ui").getD (.jobj [])) }
    | _ => .ok defaultConfig01

/-- **C10.** In the final monitor variant, when the config file exists but is
not parseable JSON, `AppConfig.load` writes the serialized all-defaults
configuration over the file before returning it (destroying the malformed
contents); the same happens for an absent file, while a parsed document is
merged without writing anything. -/
theorem load03_overwrites_malformed :
    load03 .unparseable = (.ok defaultConfig03, [defaultConfig03]) ∧
    load03 .absent = (.ok defaultConfig03, [defaultConfig03]) ∧
    (∀ v, (load03 (.parsed v)).2 = []) :=
  ⟨rfl, rfl, fun _ => rfl⟩

/-- A configuration document whose `ui` section holds a non-numeric string
where an integer is expected. -/
def badIntDoc : JVal :=
  .jobj [("ui", .jobj [("ui_update_interval_ms", .jstr "abc")])]

/-- **C2 (counterexample).** The claim fails on the final monitor variant:
`int("abc")` raises `ValueError` inside `AppConfig.load` (line 104) and no
handler catches it, so loading a parseable document with a type-mismatched
field aborts instead of substituting a default. -/
theorem load03_raises_on_type_mismatch :
    (load03 (.parsed badIntDoc)).1 = .error () := rfl

/-- **C2 (amended).** The 01_Learn variant's `AppConfig.load` never raises,
for any file state and any parsed document; the final variant's `load`
returns the defaults without raising for an absent or unparseable file (but
can raise on type-mismatched fields of a parsed document). -/
theorem appconfig_load_tolerance :
    (∀ fc, (load01 fc).isOk = true) ∧
    (load03 .absent).1 = .ok defaultConfig03 ∧
    (load03 .unparseable).1 = .ok defaultConfig03 := by
  refine ⟨fun fc => ?_, rfl, rfl⟩
  cases fc with
  | absent => rfl
  | unparseable => rfl
  | parsed v => cases v <;> rfl

/-- A configuration document whose `filt` section has an invalid
`filter_type` string and a well-formed `window_size`. -/
def filtDoc (s : String) (n : ℤ) : JVal :=
  .jobj [("filt", .jobj [("filter_type", .jstr s), ("window_size", .jint n)])]

/-- **C7.** Loading a document whose `filt` section carries a `filter_type`
string matching no filter type (neither a display value nor a member name)
together with a well-formed `window_size` yields, in both variants, a config
whose `filter_type` is the pre-merge default `MOVING_AVG` while `window_size`
takes the document's value: the enum-coercion failure does not affect sibling
fields of the same section. -/
theorem invalid_filter_type_isolated (s : String) (n : ℤ)
    (hs : ∀ t : FilterType, s ≠ t.value ∧ s ≠ t.pyName) :
    (load03 (.parsed (filtDoc s n))).1 =
      .ok { defaultConfig03 with
            filt := { filter_type := .MOVING_AVG, window_size := n,
                      kalman_Q := 1/100, kalman_R := 1/10 } } ∧
    load01 (.parsed (filtDoc s n)) =
      .ok { defaultConfig01 with
            filt := [("filter_type", .ft .MOVING_AVG),
                     ("window_size", .j (.jint n)),
                     ("kalman_Q", .j (.jfloat (1/100))),
                     ("kalman_R", .j (.jfloat (1/10)))] } := by
  obtain ⟨h1, h1n⟩ := hs .NONE
  obtain ⟨h2, h2n⟩ := hs .MOVING_AVG
  obtain ⟨h3, h3n⟩ := hs .MEDIAN
  obtain ⟨h4, h4n⟩ := hs .KALMAN
  simp only [FilterType.value, FilterType.pyName] at h1 h1n h2 h2n h3 h3n h4 h4n
  constructor
  · simp [load03, load03Parsed, filtDoc, pyGetE, jlookup, pyIntE, pyFloatE,
      pyBool, pyStr, safeFilterType, defaultConfig03, FilterType.value,
      FilterType.pyName, h1, h1n, h2, h2n, h3, h3n, h4, h4n,
      bind, Except.bind, pure, Except.pure]
  · simp [load01, mergeFilt01, safeDataclassUpdate, filtDoc, jlookup, plookup,
      filterTypeOfValue, defaultConfig01, FilterType.value, h1, h2, h3, h4]

/-- Witness for C7 at the concrete invalid string `"bogus"` and
`window_size = 7`. -/
theorem invalid_filter_type_isolated_witness :
    (load03 (.parsed (filtDoc "bogus" 7))).1 =
      .ok { defaultConfig03 with
            filt := { filter_type := .MOVING_AVG, window_size := 7,
                      kalman_Q := 1/100, kalman_R := 1/10 } } ∧
    load01 (.parsed (filtDoc "bogus" 7)) =
      .ok { defaultConfig01 with
            filt := [("filter_type", .ft .MOVING_AVG),
                     ("window_size", .j (.jint 7)),
                     ("kalman_Q", .j (.jfloat (1/100))),
                     ("kalman_R", .j (.jfloat (1/10)))] } :=
  invalid_filter_type_isolated "bogus" 7
    (fun t => by cases t <;> exact ⟨by decide, by decide⟩)

/-! ## JSON text decoding

Shared by the two JSON frame decoders.  `jsonLoads` models `json.loads` on
the fragment the claims exercise: one object with string keys and string
values (with `\"`, `\\` and the usual single-character escapes; raw control
characters are rejected as in strict-mode `json.loads`; `\uXXXX` and
non-string values are not modelled and fail the parse). -/

def isJsonWs (c : Char) : Bool :=
  c == ' ' || c == '\t' || c == '\n' || c == '\r'

def skipJWs (cs : List Char) : List Char := cs.dropWhile isJsonWs

/-- The character denoted by a single-character JSON escape. -/
def escCharVal : Char → Option Char
  | '"' => some '"'
  | '\\' => some '\\'
  | '/' => some '/'
  | 'b' => some (Char.ofNat 8)
  | 'f' => some (Char.ofNat 12)
  | 'n' => some '\n'
  | 'r' => some '\r'
  | 't' => some '\t'
  | _ => none

/-- Parse a JSON string body (the opening quote already consumed): the
string's characters and the remainder after the closing quote. -/
def parseJStr : List Char → Option (List Char × List Char)
  | [] => none
  | c :: rest =>
    if c = '"' then some ([], rest)
    else if c = '\\' then
      match rest with
      | [] => none
      | e :: rest2 =>
        match escCharVal e, parseJStr rest2 with
        | some c2, some (s, r) => some (c2 :: s, r)
        | _, _ => none
    else if c.toNat < 32 then none
    else
      match parseJStr rest with
      | some (s, r) => some (c :: s, r)
      | none => none

/-- Parse the members of a non-empty flat object, starting at the first
member's opening quote, through the closing `}`. -/
def parseJMembers : ℕ → List Char → Option (List (String × JVal) × List Char)
  | 0, _ => none
  | fuel + 1, cs =>
    match cs with
    | '"' :: cs1 =>
      match parseJStr cs1 with
      | none => none
      | some (k, cs2) =>
        match skipJWs cs2 with
        | ':' :: cs3 =>
          match skipJWs cs3 with
          | '"' :: cs4 =>
            match parseJStr cs4 with
            | none => none
            | some (v, cs5) =>
              match skipJWs cs5 with
              | ',' :: cs6 =>
                match parseJMembers fuel (skipJWs cs6) with
                | some (kvs, rest) =>
                  some ((String.mk k, JVal.jstr (String.mk v)) :: kvs, rest)
                | none => none
              | '}' :: cs6 => some ([(String.mk k, JVal.jstr (String.mk v))], cs6)
              | _ => none
          | _ => none
        | _ => none
    | _ => none

/-- The object's interior after the opening `{` (whitespace already
skipped): either an immediate `}` (empty object) or a member list. -/
def jsonLoadsInner : List Char → Option JVal
  | '}' :: cs4 => if (skipJWs cs4).isEmpty then some (.jobj []) else none
  | cs3 =>
    match parseJMembers cs3.length cs3 with
    | some (kvs, rest) =>
      if (skipJWs rest).isEmpty then some (.jobj kvs) else none
    | none => none

/-- The document after leading whitespace: must be an object. -/
def jsonLoadsDoc : List Char → Option JVal
  | '{' :: cs2 => jsonLoadsInner (skipJWs cs2)
  | _ => none

/-- `json.loads` on a candidate span (flat string-object fragment): one
object, nothing but whitespace around it. -/
def jsonLoads (cs : List Char) : Option JVal := jsonLoadsDoc (skipJWs cs)

/-! ### Serialized input family

`dumpFlatObj` renders a flat string-keyed, string-valued object as compact
JSON text, escaping `"` and `\` — the claim's family of "complete, valid JSON
objects whose quoted string values contain braces (possibly alongside
backslash-escaped quotes)". -/

def escChars : List Char → List Char
  | [] => []
  | c :: cs =>
    if c = '"' ∨ c = '\\' then '\\' :: c :: escChars cs else c :: escChars cs

def dumpMember (kv : String × String) : List Char :=
  '"' :: (escChars kv.1.data ++ '"' :: ':' :: '"' :: (escChars kv.2.data ++ ['"']))

def dumpMembers : List (String × String) → List Char
  | [] => []
  | [kv] => dumpMember kv
  | kv :: rest => dumpMember kv ++ ',' :: dumpMembers rest

def dumpFlatObj (kvs : List (String × String)) : List Char :=
  '{' :: (dumpMembers kvs ++ ['}'])

/-! ### The quote/escape-aware scanner of `process_json_buffer`

Model of `SerialPage.process_json_buffer` (01_ReadSerial.py lines 746-786):
a single pass tracks in-string/escape state and brace depth, recording the
`(start, end)` spans whose depth returns to zero. -/

structure JScanState where
  inStr : Bool
  esc : Bool
  depth : ℕ
  start : Option ℕ
  objs : List (ℕ × ℕ)

/-- One character of the scan loop (`for i, ch in enumerate(buf)`). -/
def jscanStep (i : ℕ) (ch : Char) (st : JScanState) : JScanState :=
  if st.inStr then
    if st.esc then { st with esc := false }
    else if ch = '\\' then { st with esc := true }
    else if ch = '"' then { st with inStr := false }
    else st
  else if ch = '"' then { st with inStr := true }
  else if ch = '{' then
    { st with depth := st.depth + 1,
              start := if st.depth = 0 then some i else st.start }
  else if ch = '}' then
    if 0 < st.depth then
      if st.depth = 1 ∧ st.start.isSome then
        { st with depth := st.depth - 1, objs := st.objs ++ [(st.start.getD 0, i)] }
      else { st with depth := st.depth - 1 }
    else st
  else st

def jscanGo (st : JScanState) (i : ℕ) : List Char → JScanState
  | [] => st
  | c :: cs => jscanGo (jscanStep i c st) (i + 1) cs

def jscanInit : JScanState := ⟨false, false, 0, none, []⟩

/-- Index of the last `{` in the buffer (`buf.rfind("{")`). -/
def lastBraceIdx (buf : List Char) : Option ℕ :=
  ((buf.enum.filter (fun p => p.2 = '{')).getLast?).map (·.1)

/-- `SerialPage.process_json_buffer` on the accumulated text: scan for
top-level brace-balanced spans (quote/escape-aware), `json.loads` each span
(failures are skipped silently but still advance `last_consumed`), keep the
text after the last completed span — or, if no span completed, from the last
`{` on (nothing if there is no `{`).  Returns the emitted objects and the new
buffer.  (The locally attached `receive_time` timestamp is not modelled.) -/
def processJsonBuffer (buf : List Char) : List JVal × List Char :=
  let objs := (jscanGo jscanInit 0 buf).objs
  let emitted := objs.filterMap
    (fun se => jsonLoads ((buf.drop se.1).take (se.2 + 1 - se.1)))
  match objs.getLast? with
  | some se => (emitted, buf.drop (se.2 + 1))
  | none =>
    match lastBraceIdx buf with
    | some idx => (emitted, buf.drop idx)
    | none => (emitted, [])

/-! ### The naive brace counter of `JsonFrameDecoder.feed`

Model of `JsonFrameDecoder.feed` (DataDecoders.py lines 116-164) on an empty
decoder: while the buffer holds a `}`, find the first `{` (no `{` clears the
buffer), and scan forward counting *every* brace — no quote or escape
awareness — until the count returns to zero; a completed span is
`json.loads`-ed (failures silently dropped) and consumed; an incomplete span
stops the loop. -/

def braceEnd : List Char → ℕ → ℤ → Option ℕ
  | [], _, _ => none
  | c :: cs, i, depth =>
    let d := if c = '{' then depth + 1 else if c = '}' then depth - 1 else depth
    if d = 0 then some i else braceEnd cs (i + 1) d

def jsonFeedLoop (buf : List Char) : List JVal × List Char :=
  if _hmem : '}' ∈ buf then
    match List.findIdx? (fun c => c = '{') buf with
    | none => ([], [])
    | some start =>
      match braceEnd (buf.drop start) start 0 with
      | some e =>
        let fb := jsonFeedLoop (buf.drop (e + 1))
        match jsonLoads ((buf.drop start).take (e + 1 - start)) with
        | some obj => (obj :: fb.1, fb.2)
        | none => fb
      | none => ([], buf)
  else ([], buf)
termination_by buf.length
decreasing_by
  simp only [List.length_drop]
  have : buf ≠ [] := by
    intro hc
    rw [hc] at _hmem
    exact (List.not_mem_nil _) _hmem
  have : 0 < buf.length := List.length_pos.mpr this
  omega

/-- **C4 (counterexample).** `JsonFrameDecoder.feed` (DataDecoders.py) does
*not* ignore braces inside quoted strings: fed the complete, valid JSON
object `{"a":"}"}` (whose string value is the single character `}`), its
plain brace count hits zero at the `}` inside the quotes, the truncated span
fails to parse and is dropped, and the loop then clears the rest — zero
objects are emitted where the claim requires exactly the one object. -/
theorem json_frame_decoder_misses_braced_string :
    jsonFeedLoop (dumpFlatObj [("a", "\x7d")]) = ([], []) ∧
    (jsonFeedLoop (dumpFlatObj [("a", "\x7d")])).1 ≠
      [JVal.jobj [("a", JVal.jstr "\x7d")]] := by
  have hbuf : dumpFlatObj [("a", "\x7d")] =
      ['{', '"', 'a', '"', ':', '"', '}', '"', '}'] := by
    decide
  have h2 : jsonFeedLoop ['"', '}'] = ([], []) := by
    rw [jsonFeedLoop, dif_pos (show '}' ∈ (['"', '}'] : List Char) by decide)]
    rw [show List.findIdx? (fun c => c = '{') (['"', '}'] : List Char) = none
      from rfl]
  have h1 : jsonFeedLoop ['{', '"', 'a', '"', ':', '"', '}', '"', '}'] =
      ([], []) := by
    rw [jsonFeedLoop, dif_pos
      (show '}' ∈ (['{', '"', 'a', '"', ':', '"', '}', '"', '}'] : List Char)
        by decide)]
    rw [show List.findIdx? (fun c => c = '{')
        (['{', '"', 'a', '"', ':', '"', '}', '"', '}'] : List Char) = some 0
      from rfl]
    simp only []
    rw [show braceEnd
        (List.drop 0 (['{', '"', 'a', '"', ':', '"', '}', '"', '}'] : List Char))
        0 0 = some 6 from rfl]
    simp only []
    rw [show jsonLoads (List.take (6 + 1 - 0)
        (List.drop 0 (['{', '"', 'a', '"', ':', '"', '}', '"', '}'] : List Char)))
        = none from rfl]
    simp only []
    rw [show List.drop (6 + 1)
        (['{', '"', 'a', '"', ':', '"', '}', '"', '}'] : List Char) = ['"', '}']
      from rfl]
    simp only [h2]
  rw [hbuf, h1]
  exact ⟨rfl, by simp⟩

/-! ### Scanner lemmas: the scan of a serialized flat object yields exactly
the whole-buffer span. -/

theorem jscanStep_inStr_esc (i : ℕ) (c : Char) (d : ℕ) (s0 : Option ℕ)
    (objs : List (ℕ × ℕ)) :
    jscanStep i c ⟨true, true, d, s0, objs⟩ = ⟨true, false, d, s0, objs⟩ := by
  simp [jscanStep]

theorem jscanStep_inStr_other (i : ℕ) (c : Char) (d : ℕ) (s0 : Option ℕ)
    (objs : List (ℕ × ℕ)) (h1 : c ≠ '\\') (h2 : c ≠ '"') :
    jscanStep i c ⟨true, false, d, s0, objs⟩ = ⟨true, false, d, s0, objs⟩ := by
  simp [jscanStep, h1, h2]

theorem jscanStep_other (i : ℕ) (c : Char) (d : ℕ) (s0 : Option ℕ)
    (objs : List (ℕ × ℕ)) (h1 : c ≠ '"') (h2 : c ≠ '{') (h3 : c ≠ '}') :
    jscanStep i c ⟨false, false, d, s0, objs⟩ = ⟨false, false, d, s0, objs⟩ := by
  simp [jscanStep, h1, h2, h3]

/-- Scanning the escaped rendering of any string from inside a quoted string
leaves the scanner state untouched (braces in the text included). -/
theorem jscanGo_escChars (cs : List Char) (d : ℕ) (s0 : Option ℕ)
    (objs : List (ℕ × ℕ)) (i : ℕ) (tail : List Char) :
    jscanGo ⟨true, false, d, s0, objs⟩ i (escChars cs ++ tail) =
      jscanGo ⟨true, false, d, s0, objs⟩ (i + (escChars cs).length) tail := by
  induction cs generalizing i with
  | nil => simp [escChars]
  | cons c cs ih =>
    by_cases hc : c = '"' ∨ c = '\\'
    · rw [escChars, if_pos hc]
      have hbs : jscanStep i '\\' ⟨true, false, d, s0, objs⟩ =
          ⟨true, true, d, s0, objs⟩ := by simp [jscanStep]
      rw [List.cons_append, List.cons_append, jscanGo, hbs, jscanGo,
        jscanStep_inStr_esc, ih]
      congr 1
      simp
      omega
    · push_neg at hc
      rw [escChars, if_neg (by tauto)]
      rw [List.cons_append, jscanGo, jscanStep_inStr_other i c d s0 objs hc.2 hc.1,
        ih]
      congr 1
      simp
      omega

/-- Scanning one full quoted string from outside a string: state untouched. -/
theorem jscanGo_quoted (cs : List Char) (d : ℕ) (s0 : Option ℕ)
    (objs : List (ℕ × ℕ)) (i : ℕ) (tail : List Char) :
    jscanGo ⟨false, false, d, s0, objs⟩ i
        ('"' :: (escChars cs ++ '"' :: tail)) =
      jscanGo ⟨false, false, d, s0, objs⟩ (i + (escChars cs).length + 2) tail := by
  have hq : jscanStep i '"' ⟨false, false, d, s0, objs⟩ =
      ⟨true, false, d, s0, objs⟩ := by simp [jscanStep]
  have hq2 : ∀ j, jscanStep j '"' ⟨true, false, d, s0, objs⟩ =
      ⟨false, false, d, s0, objs⟩ := by intro j; simp [jscanStep]
  rw [jscanGo, hq, jscanGo_escChars]
  rw [jscanGo, hq2]
  congr 1
  omega

/-- Scanning one serialized member: state untouched. -/
theorem jscanGo_member (kv : String × String) (d : ℕ) (s0 : Option ℕ)
    (objs : List (ℕ × ℕ)) (i : ℕ) (tail : List Char) :
    jscanGo ⟨false, false, d, s0, objs⟩ i (dumpMember kv ++ tail) =
      jscanGo ⟨false, false, d, s0, objs⟩ (i + (dumpMember kv).length) tail := by
  rw [dumpMember]
  have hcolon : ∀ j, jscanStep j ':' ⟨false, false, d, s0, objs⟩ =
      ⟨false, false, d, s0, objs⟩ := fun j =>
    jscanStep_other j ':' d s0 objs (by decide) (by decide) (by decide)
  rw [List.cons_append, List.append_assoc, List.cons_append, List.cons_append,
    List.cons_append, List.append_assoc, List.cons_append, List.nil_append]
  rw [jscanGo_quoted]
  rw [jscanGo, hcolon]
  rw [jscanGo_quoted]
  congr 1
  simp [dumpMember]
  omega

/-- Scanning all serialized members: state untouched. -/
theorem jscanGo_members (kvs : List (String × String)) (d : ℕ) (s0 : Option ℕ)
    (objs : List (ℕ × ℕ)) (i : ℕ) (tail : List Char) :
    jscanGo ⟨false, false, d, s0, objs⟩ i (dumpMembers kvs ++ tail) =
      jscanGo ⟨false, false, d, s0, objs⟩ (i + (dumpMembers kvs).length) tail := by
  induction kvs generalizing i with
  | nil => simp [dumpMembers]
  | cons kv kvs ih =>
    match kvs with
    | [] =>
      rw [show dumpMembers [kv] = dumpMember kv from rfl, jscanGo_member]
    | kv2 :: kvs2 =>
      rw [show dumpMembers (kv :: kv2 :: kvs2) =
        dumpMember kv ++ ',' :: dumpMembers (kv2 :: kvs2) from rfl]
      have hcomma : ∀ j, jscanStep j ',' ⟨false, false, d, s0, objs⟩ =
          ⟨false, false, d, s0, objs⟩ := fun j =>
        jscanStep_other j ',' d s0 objs (by decide) (by decide) (by decide)
      rw [List.append_assoc, List.cons_append, jscanGo_member, jscanGo, hcomma,
        ih]
      congr 1
      simp
      omega

/-- The full scan of a serialized flat object: exactly one recorded span,
covering the whole text. -/
theorem jscan_dumpFlatObj (kvs : List (String × String)) :
    jscanGo jscanInit 0 (dumpFlatObj kvs) =
      ⟨false, false, 0, some 0, [(0, (dumpMembers kvs).length + 1)]⟩ := by
  rw [dumpFlatObj, jscanGo]
  have hopen : jscanStep 0 '{' jscanInit = ⟨false, false, 1, some 0, []⟩ := by
    simp [jscanStep, jscanInit]
  rw [hopen, jscanGo_members]
  have hidx : 0 + 1 + (dumpMembers kvs).length = (dumpMembers kvs).length + 1 := by
    omega
  rw [hidx]
  have hclose : jscanStep ((dumpMembers kvs).length + 1) '}'
      ⟨false, false, 1, some 0, []⟩ =
      ⟨false, false, 0, some 0, [(0, (dumpMembers kvs).length + 1)]⟩ := by
    simp [jscanStep]
  rw [jscanGo, hclose, jscanGo]

/-! ### Parser lemmas: `json.loads` round-trips the serialized object. -/

theorem skipJWs_cons (c : Char) (l : List Char) (h : isJsonWs c = false) :
    skipJWs (c :: l) = c :: l := by
  simp [skipJWs, List.dropWhile, h]

theorem parseJStr_cons (c : Char) (rest : List Char) :
    parseJStr (c :: rest) =
      (if c = '"' then some ([], rest)
       else if c = '\\' then
         match rest with
         | [] => none
         | e :: rest2 =>
           match escCharVal e, parseJStr rest2 with
           | some c2, some (s, r) => some (c2 :: s, r)
           | _, _ => none
       else if c.toNat < 32 then none
       else
         match parseJStr rest with
         | some (s, r) => some (c :: s, r)
         | none => none) := by
  rw [parseJStr.eq_def]

theorem parseJStr_escChars (cs rest : List Char)
    (h : ∀ c ∈ cs, ¬ c.toNat < 32) :
    parseJStr (escChars cs ++ '"' :: rest) = some (cs, rest) := by
  induction cs with
  | nil =>
    simp only [escChars, List.nil_append]
    rw [parseJStr_cons, if_pos rfl]
  | cons c cs ih =>
    have hc := h c (List.mem_cons_self c cs)
    have hcs : ∀ x ∈ cs, ¬ x.toNat < 32 := fun x hx =>
      h x (List.mem_cons_of_mem c hx)
    by_cases hq : c = '"' ∨ c = '\\'
    · rcases hq with hq | hq <;> subst hq
      · rw [escChars, if_pos (Or.inl rfl), List.cons_append, List.cons_append,
          parseJStr_cons, if_neg (by decide), if_pos rfl]
        simp only [ih hcs]
        rfl
      · rw [escChars, if_pos (Or.inr rfl), List.cons_append, List.cons_append,
          parseJStr_cons, if_neg (by decide), if_pos rfl]
        simp only [ih hcs]
        rfl
    · push_neg at hq
      rw [escChars, if_neg (by tauto), List.cons_append, parseJStr_cons,
        if_neg hq.1, if_neg hq.2, if_neg hc, ih hcs]

theorem dumpMembers_head (kv : String × String) (kvs : List (String × String)) :
    ∃ t, dumpMembers (kv :: kvs) = '"' :: t := by
  cases kvs
  · exact ⟨_, rfl⟩
  · exact ⟨_, rfl⟩

theorem length_dumpMembers_ge (kvs : List (String × String)) :
    kvs.length ≤ (dumpMembers kvs).length := by
  induction kvs with
  | nil => simp [dumpMembers]
  | cons kv kvs ih =>
    obtain ⟨t, ht⟩ := dumpMembers_head kv kvs
    cases kvs with
    | nil => simp [dumpMembers, dumpMember]
    | cons kv2 kvs2 =>
      rw [show dumpMembers (kv :: kv2 :: kvs2) =
        dumpMember kv ++ ',' :: dumpMembers (kv2 :: kvs2) from rfl]
      simp only [List.length_append, List.length_cons, dumpMember]
      simp only [List.length_cons] at ih ⊢
      omega

theorem parseJMembers_dump : ∀ (fuel : ℕ) (kvs : List (String × String))
    (rest : List Char), kvs ≠ [] → kvs.length ≤ fuel →
    (∀ kv ∈ kvs, (∀ c ∈ kv.1.data, ¬ c.toNat < 32) ∧
      (∀ c ∈ kv.2.data, ¬ c.toNat < 32)) →
    parseJMembers fuel (dumpMembers kvs ++ '}' :: rest) =
      some (kvs.map (fun kv => (kv.1, JVal.jstr kv.2)), rest) := by
  intro fuel
  induction fuel with
  | zero =>
    intro kvs rest hne hlen _
    cases kvs with
    | nil => exact absurd rfl hne
    | cons kv kvs' => simp at hlen
  | succ n ih =>
    intro kvs rest hne hlen hctrl
    match kvs with
    | [] => exact absurd rfl hne
    | kv :: kvs' =>
      obtain ⟨hk, hv⟩ := hctrl kv (List.mem_cons_self _ _)
      have hsc : ∀ l : List Char, skipJWs (':' :: l) = ':' :: l :=
        fun l => skipJWs_cons ':' l (by decide)
      have hsq : ∀ l : List Char, skipJWs ('"' :: l) = '"' :: l :=
        fun l => skipJWs_cons '"' l (by decide)
      have hsb : ∀ l : List Char, skipJWs ('}' :: l) = '}' :: l :=
        fun l => skipJWs_cons '}' l (by decide)
      match kvs' with
      | [] =>
        rw [show dumpMembers [kv] = dumpMember kv from rfl, dumpMember]
        simp only [List.cons_append, List.append_assoc, List.nil_append]
        rw [parseJMembers]
        rw [parseJStr_escChars kv.1.data
          (':' :: '"' :: (escChars kv.2.data ++ '"' :: '}' :: rest)) hk]
        simp only [hsc]
        simp only [hsq]
        rw [parseJStr_escChars kv.2.data ('}' :: rest) hv]
        simp only [hsb]
        rfl
      | kv2 :: kvs2 =>
        have hne2 : kv2 :: kvs2 ≠ [] := by simp
        have hlen2 : (kv2 :: kvs2).length ≤ n := by
          simp only [List.length_cons] at hlen ⊢
          omega
        have hctrl2 : ∀ x ∈ kv2 :: kvs2, (∀ c ∈ x.1.data, ¬ c.toNat < 32) ∧
            (∀ c ∈ x.2.data, ¬ c.toNat < 32) :=
          fun x hx => hctrl x (List.mem_cons_of_mem kv hx)
        obtain ⟨t, ht⟩ := dumpMembers_head kv2 kvs2
        rw [show dumpMembers (kv :: kv2 :: kvs2) =
          dumpMember kv ++ ',' :: dumpMembers (kv2 :: kvs2) from rfl, dumpMember]
        simp only [List.cons_append, List.append_assoc, List.nil_append]
        rw [parseJMembers]
        rw [parseJStr_escChars kv.1.data
          (':' :: '"' :: (escChars kv.2.data ++ '"' :: ',' ::
            (dumpMembers (kv2 :: kvs2) ++ '}' :: rest))) hk]
        simp only [hsc]
        simp only [hsq]
        rw [parseJStr_escChars kv.2.data
          (',' :: (dumpMembers (kv2 :: kvs2) ++ '}' :: rest)) hv]
        have hsm : ∀ l : List Char, skipJWs (',' :: l) = ',' :: l :=
          fun l => skipJWs_cons ',' l (by decide)
        simp only [hsm]
        rw [ht, List.cons_append]
        simp only [hsq]
        rw [← List.cons_append, ← ht]
        rw [ih (kv2 :: kvs2) rest hne2 hlen2 hctrl2]
        rfl

/-- `json.loads` of the serialized flat object succeeds with that object. -/
theorem jsonLoads_dump (kvs : List (String × String))
    (hctrl : ∀ kv ∈ kvs, (∀ c ∈ kv.1.data, ¬ c.toNat < 32) ∧
      (∀ c ∈ kv.2.data, ¬ c.toNat < 32)) :
    jsonLoads (dumpFlatObj kvs) =
      some (.jobj (kvs.map (fun kv => (kv.1, JVal.jstr kv.2)))) := by
  rw [dumpFlatObj, jsonLoads]
  rw [show skipJWs ('{' :: (dumpMembers kvs ++ ['}'])) =
    '{' :: (dumpMembers kvs ++ ['}']) from skipJWs_cons '{' _ (by decide)]
  rw [jsonLoadsDoc]
  cases kvs with
  | nil =>
    rw [show dumpMembers ([] : List (String × String)) ++ ['}'] = ['}']
      from rfl]
    rw [show skipJWs ['}'] = ['}'] from skipJWs_cons '}' [] (by decide)]
    rfl
  | cons kv kvs' =>
    obtain ⟨t, ht⟩ := dumpMembers_head kv kvs'
    rw [ht, List.cons_append]
    rw [show skipJWs ('"' :: (t ++ ['}'])) = '"' :: (t ++ ['}']) from
      skipJWs_cons '"' _ (by decide)]
    rw [← List.cons_append, ← ht]
    have hg := length_dumpMembers_ge (kv :: kvs')
    have hfuel : (kv :: kvs').length ≤
        (dumpMembers (kv :: kvs') ++ ['}']).length := by
      simp only [List.length_append, List.length_cons, List.length_nil]
      simp only [List.length_cons] at hg
      omega
    rw [jsonLoadsInner]
    · rw [parseJMembers_dump _ (kv :: kvs') [] (by simp) hfuel hctrl]
      rfl
    · rw [ht]
      simp

/-- **C4 (amended).** For every complete, valid JSON object in the modelled
family (a flat object with string keys and string values over non-control
characters — values may contain `{`/`}` and backslash-escaped quotes), feeding
the object's text to the final monitor's `process_json_buffer` emits exactly
that one object and leaves an empty buffer: its brace-depth scan ignores
braces inside quoted strings and respects backslash escapes. -/
theorem process_json_buffer_quote_aware (kvs : List (String × String))
    (hctrl : ∀ kv ∈ kvs, (∀ c ∈ kv.1.data, ¬ c.toNat < 32) ∧
      (∀ c ∈ kv.2.data, ¬ c.toNat < 32)) :
    processJsonBuffer (dumpFlatObj kvs) =
      ([.jobj (kvs.map (fun kv => (kv.1, JVal.jstr kv.2)))], []) := by
  have hlen : (dumpFlatObj kvs).length = (dumpMembers kvs).length + 2 := by
    simp [dumpFlatObj]
  rw [processJsonBuffer, jscan_dumpFlatObj]
  simp only []
  rw [show ([(0, (dumpMembers kvs).length + 1)] : List (ℕ × ℕ)).getLast? =
    some (0, (dumpMembers kvs).length + 1) from rfl]
  simp only [List.filterMap_cons, List.filterMap_nil]
  rw [show (dumpMembers kvs).length + 1 + 1 - 0 = (dumpFlatObj kvs).length from
    by omega]
  rw [List.drop_zero, List.take_length]
  rw [jsonLoads_dump kvs hctrl]
  rw [show (dumpFlatObj kvs).drop ((dumpMembers kvs).length + 1 + 1) = [] from
    List.drop_eq_nil_of_le (by omega)]

/-- Witness for the amended C4 at a concrete object whose values contain
braces and an escaped quote: `{"a":"}{","b":"x\"y"}`. -/
theorem process_json_buffer_quote_aware_witness :
    processJsonBuffer (dumpFlatObj [("a", "\x7d\x7b"), ("b", "x\"y")]) =
      ([.jobj [("a", JVal.jstr "\x7d\x7b"), ("b", JVal.jstr "x\"y")]], []) :=
  process_json_buffer_quote_aware [("a", "\x7d\x7b"), ("b", "x\"y")]
    (by decide)

end CGM
